import Mathlib

/-
Verification development for the swiss-knife media downloader
(src/media/mediaDownloader.py).  The Python source is shallowly embedded:
pure string helpers become Lean functions on String/List Char (Python
string indexing is by code point, matched here by List Char), the
filesystem is a list of file names in the destination directory, and the
external transfer engine (yt-dlp) is a per-item behaviour parameter
recording how many "finished" progress events it fired, whether it raised,
and which files it created.  Python truthiness of optional values is
modelled explicitly.  Character classes use the ASCII fragment of
the Python functions str.isalnum / str.rstrip, which agree with Lean Char.isAlphanum
and Char.isWhitespace on every input considered here.
-/

namespace SwissKnife

/-! ## String helpers (Python semantics on code points) -/

/-- Python substring slice s[:n] by code points. -/
def strTake (s : String) (n : Nat) : String := String.mk (s.data.take n)

/-- Drop the last n code points of a string. -/
def strDropRight (s : String) (n : Nat) : String := String.mk (s.data.take (s.data.length - n))

/-- Python str.endswith. -/
def strEndsWith (s post : String) : Bool := post.data.isSuffixOf s.data

/-- Python "pat in s" substring containment. -/
def strContainsB (s pat : String) : Bool :=
  (List.range (s.data.length + 1)).any (fun i => pat.data.isPrefixOf (s.data.drop i))

/-- Python str.startswith. -/
def strStartsWith (s pre : String) : Bool := pre.data.isPrefixOf s.data

/-! ## sanitize_filename (mediaDownloader.py lines 22-26) -/

/-- Characters kept by sanitize_filename: c.isalnum() or c in " .-_". -/
def keepChar (c : Char) : Bool := c.isAlphanum || c == ' ' || c == '.' || c == '-' || c == '_'

/-- Python str.rstrip(): remove trailing whitespace characters. -/
def rstripList (l : List Char) : List Char := (l.reverse.dropWhile Char.isWhitespace).reverse

/-- sanitize_filename: returns "Unknown" for a falsy (None or empty) name,
otherwise keeps only alphanumerics and " .-_" and strips trailing
whitespace. -/
def sanitize_filename : Option String → String
  | none => "Unknown"
  | some s => if s = "" then "Unknown" else String.mk (rstripList (s.data.filter keepChar))

/-- sanitize_filename applied to a present string argument. -/
def sanitizeStr (s : String) : String := sanitize_filename (some s)

/-! ## Expected output names -/

/-- Python f-string field {index:02d} for a natural number index. -/
def pad2 (n : Nat) : String := if n < 10 then "0" ++ toString n else toString n

/-- Expected file name as built in find_downloaded_file (lines 63-66) and in
the playlist loop (line 376): indexed form "NN - title.fmt", plain form
"title.fmt". -/
def expected_name (index : Option Nat) (title : String) (fmt : String) : String :=
  match index with
  | some i => pad2 i ++ " - " ++ sanitizeStr title ++ "." ++ fmt
  | none => sanitizeStr title ++ "." ++ fmt

/-- Output file name produced by the transfer engine according to the
outtmpl "%(title)s.%(ext)s" set in get_ydl_opts (lines 119 and 121, the two
branches are identical), for titles the engine renders verbatim. -/
def outtmpl_name (title ext : String) : String := title ++ "." ++ ext

/-! ## find_downloaded_file (lines 61-80) -/

/-- find_downloaded_file: return the exactly-named expected file if present,
otherwise the first listed file having the right extension whose sanitized
name contains the first 20 characters of the sanitized title. -/
def find_downloaded_file (files : List String) (title : String) (index : Option Nat)
    (file_format : String) : Option String :=
  let expected := expected_name index title file_format
  if expected ∈ files then some expected
  else
    let titlePart := strTake (sanitizeStr title) 20
    files.find? (fun f => strEndsWith f ("." ++ file_format) && strContainsB (sanitizeStr f) titlePart)

/-- Modelled from the spec: the File Resolution fallback of section 4.4,
which searches for a file whose sanitized stem (name without the
"." + format extension) shares a fixed-length (20 character) prefix with
the expected sanitized title and whose extension matches the format.  Kept
separate from find_downloaded_file so the two can be compared. -/
def find_downloaded_file_spec (files : List String) (title : String) (index : Option Nat)
    (file_format : String) : Option String :=
  let expected := expected_name index title file_format
  if expected ∈ files then some expected
  else
    files.find? (fun f => strEndsWith f ("." ++ file_format) &&
      strTake (sanitizeStr (strDropRight f (file_format.data.length + 1))) 20
        == strTake (sanitizeStr title) 20)

/-! ## URL classification (lines 28-42) -/

/-- Strip a leading "http://" or "https://" scheme, at most once. -/
def stripScheme (s : String) : String :=
  if strStartsWith s "https://" then String.mk (s.data.drop 8)
  else if strStartsWith s "http://" then String.mk (s.data.drop 7)
  else s

/-- Strip a leading "www.", at most once. -/
def stripWWW (s : String) : String :=
  if strStartsWith s "www." then String.mk (s.data.drop 4) else s

/-- validate_youtube_url: the two anchored regular expressions of lines
30-33, an optional scheme then optional "www." then one of
"youtube.com/", "youtu.be/", "youtube/" (from youtu\.?be) or
"music.youtube.com/". -/
def validate_youtube_url (url : String) : Bool :=
  let rest := stripWWW (stripScheme url)
  strStartsWith rest "youtube.com/" || strStartsWith rest "youtu.be/" ||
    strStartsWith rest "youtube/" || strStartsWith rest "music.youtube.com/"

/-- is_playlist_url: substring test for "list=" or "/playlist/". -/
def is_playlist_url (url : String) : Bool :=
  strContainsB url "list=" || strContainsB url "/playlist/"

/-! ## tag_mp3 (lines 82-114) -/

/-- Python truthiness of an optional string. -/
def truthyStr : Option String → Bool
  | none => false
  | some s => s != ""

/-- Python truthiness of an optional integer (0 is falsy). -/
def truthyNat : Option Nat → Bool
  | none => false
  | some n => n != 0

/-- Embedded metadata container of an mp3 file, as mutated by tag_mp3. -/
structure Mp3Tag where
  title : Option String
  artist : Option String
  album : Option String
  track : Option (Nat × Nat)
  image : Bool
deriving Repr, DecidableEq

/-- Fresh container written by audiofile.initTag. -/
def emptyTag : Mp3Tag := ⟨none, none, none, none, false⟩

/-- Lines 98-107 of tag_mp3: the conditional field writes.  Each field is set
only when its argument is truthy; the track position needs both the index and
the total to be truthy. -/
def applyTags (tag : Mp3Tag) (title artist album : Option String)
    (track_num total_tracks : Option Nat) (image_bytes : Bool) : Mp3Tag :=
  let t1 := if truthyStr title then { tag with title := title } else tag
  let t2 := if truthyStr artist then { t1 with artist := artist } else t1
  let t3 := if truthyStr album then { t2 with album := album } else t2
  let t4 := if truthyNat track_num && truthyNat total_tracks then
      { t3 with track := some (track_num.getD 0, total_tracks.getD 0) } else t3
  if image_bytes then { t4 with image := true } else t4

/-- tag_mp3: returns False leaving the tag untouched when the file is missing
or eyed3 cannot load it; otherwise initialises a container if absent, applies
the conditional writes and saves. -/
def tag_mp3 (fileExists loadOk : Bool) (existingTag : Option Mp3Tag)
    (title artist album : Option String) (track_num total_tracks : Option Nat)
    (image_bytes : Bool) : Bool × Option Mp3Tag :=
  if fileExists = false then (false, existingTag)
  else if loadOk = false then (false, existingTag)
  else (true, some (applyTags (existingTag.getD emptyTag) title artist album
    track_num total_tracks image_bytes))

/-! ## The batch aggregator: download_playlist (lines 288-422)

The iteration over info["entries"] is embedded as a fold.  An entry of the
playlist metadata is None or a stub; the behaviour of the external engine on one
ydl.download call is a parameter: it either returns normally or raises an
exception (the Python loop catches Exception), in both cases having fired
some number of "finished" progress-hook events (each increments
downloaded_count, lines 350-358) and created some files in the destination
directory. -/

/-- One element of info["entries"] when it is not None. -/
structure EntryStub where
  title : Option String
  uploader : Option String
  playlist_index : Option Nat
  url : String
deriving Repr, DecidableEq

/-- Behaviour of the try-block body of one iteration as driven by the
external engine: completes normally, or raises an exception caught by the
except-branch (lines 411-414).  Both record the number of "finished"
progress events fired and the files the engine created.  tag_mp3 catches its
own exceptions, so a raise models the transfer step. -/
inductive TransferBeh where
  | completes (finished : Nat) (created : List String)
  | raises (finished : Nat) (created : List String)
deriving Repr, DecidableEq

/-- Mutable state of one download_playlist run: destination directory
listing, the three counters, the urls passed to ydl.download, the paths
passed to tag_mp3, and the count of could-not-find-file warnings. -/
structure BatchState where
  fs : List String
  downloaded : Nat
  skipped : Nat
  errors : Nat
  transferCalls : List String
  tagCalls : List String
  warnings : Nat
deriving Repr, DecidableEq

/-- Initial state over a given destination directory listing. -/
def initState (fs : List String) : BatchState :=
  ⟨fs, 0, 0, 0, [], [], 0⟩

/-- Expected file name the playlist loop checks for an entry (line 376):
always the indexed form, with playlist_index defaulting to 0. -/
def entryExpected (st : EntryStub) (fmt : String) : String :=
  expected_name (some (st.playlist_index.getD 0)) (st.title.getD "Unknown Title") fmt

/-- One iteration of the playlist loop (lines 364-414). -/
def processEntry (fmt : String) (s : BatchState) : Option EntryStub × TransferBeh → BatchState
  | (none, _) => { s with errors := s.errors + 1 }
  | (some st, beh) =>
    if truthyStr st.title then
      let title := st.title.getD "Unknown Title"
      let index := st.playlist_index.getD 0
      if expected_name (some index) title fmt ∈ s.fs then
        { s with skipped := s.skipped + 1 }
      else
        match beh with
        | .raises k created =>
          { s with fs := s.fs ++ created, downloaded := s.downloaded + k,
                   errors := s.errors + 1, transferCalls := s.transferCalls ++ [st.url] }
        | .completes k created =>
          let s1 : BatchState :=
            { s with fs := s.fs ++ created, downloaded := s.downloaded + k,
                     transferCalls := s.transferCalls ++ [st.url] }
          if fmt = "mp3" then
            match find_downloaded_file s1.fs title (some index) "mp3" with
            | some p => { s1 with tagCalls := s1.tagCalls ++ [p] }
            | none => { s1 with warnings := s1.warnings + 1 }
          else s1
    else { s with errors := s.errors + 1 }

/-- The whole iteration phase of download_playlist. -/
def runBatch (fmt : String) (s : BatchState) (items : List (Option EntryStub × TransferBeh)) :
    BatchState :=
  items.foldl (processEntry fmt) s

/-- Sum of the three outcome counters. -/
def sum3 (s : BatchState) : Nat := s.downloaded + s.skipped + s.errors

/-- A transfer behaviour matching the idealised engine of the spec: a completing
call fires exactly one finished event, a raising call fires none. -/
def wellBehaved : TransferBeh → Prop
  | .completes k _ => k = 1
  | .raises k _ => k = 0

/-! ## main (lines 424-502) and the run-level control flow

Exit codes: sys.exit(1) on missing argument, on an invalid URL, on
KeyboardInterrupt and on an unhandled exception; otherwise main falls off
the end and the process exits 0.  The metadata resolution step of
download_playlist (lines 315-324) catches its own exception and RETURNS,
printing an error instead of the final summary. -/

/-- Default values taken from the environment with the .env file absent
(lines 16-18). -/
def DEFAULT_OUTPUT_FOLDER : String := "downloads"

/-- Default quality (line 17). -/
def DEFAULT_QUALITY : String := "medium"

/-- Default format (line 18). -/
def DEFAULT_FORMAT : String := "mp3"

/-- Python str.lower restricted to ASCII, matching Lean Char.toLower. -/
def strLower (s : String) : String := String.mk (s.data.map Char.toLower)

/-- The optional-argument scan of main (lines 462-470): arguments 2..4 are
classified as format, quality, or otherwise an output folder. -/
def pickOpts (argv : List String) : String × String × String :=
  ((argv.drop 2).take 3).foldl
    (fun acc a =>
      let al := strLower a
      if al = "mp3" ∨ al = "mp4" then (al, acc.2.1, acc.2.2)
      else if al = "low" ∨ al = "medium" ∨ al = "high" then (acc.1, al, acc.2.2)
      else (acc.1, acc.2.1, a))
    (DEFAULT_FORMAT, DEFAULT_QUALITY, DEFAULT_OUTPUT_FOLDER)

/-- Outcome of the one metadata-resolution call (extract_info, lines
315-324): it raised (caught, printed, early return), it returned a falsy
info or one without "entries" (printed, early return), or it returned a
playlist with the given entries. -/
inductive MetaBeh where
  | raisesX
  | emptyInfo
  | ok (title : Option String) (entries : List (Option EntryStub))

/-- Behaviour of the body of the top-level try in main (lines 492-502): it
returns normally, or a KeyboardInterrupt or another unhandled exception
escapes the downloader. -/
inductive TopBeh where
  | normal
  | kbInterrupt
  | otherExc
deriving Repr, DecidableEq

/-- download_playlist run: returns whether the final summary line was
printed, and the batch state reached.  On an invalid URL or a failed or
empty metadata resolution the function returns early without a summary and
without touching any item. -/
def download_playlist_run (url : String) (mb : MetaBeh) (behs : List TransferBeh)
    (fs0 : List String) (fmt : String) : Bool × BatchState :=
  if validate_youtube_url url = false then (false, initState fs0)
  else
    match mb with
    | .raisesX => (false, initState fs0)
    | .emptyInfo => (false, initState fs0)
    | .ok _ entries => (true, runBatch fmt (initState fs0) (entries.zip behs))

/-- download_single_video run, summary-printed component only: the early
returns on invalid URL and failed or empty metadata skip the completion
message. -/
def download_single_run (url : String) (mb : MetaBeh) : Bool :=
  if validate_youtube_url url = false then false
  else
    match mb with
    | .raisesX => false
    | .emptyInfo => false
    | .ok _ _ => true

/-- Result of one whole process run. -/
structure RunReport where
  exitCode : Nat
  summaryPrinted : Bool
deriving Repr, DecidableEq

/-- main: argument check, option scan, URL validation, then dispatch to the
playlist or single-video path inside a try that turns KeyboardInterrupt and
any unhandled exception into exit 1; otherwise the process exits 0. -/
def mainRun (argv : List String) (mb : MetaBeh) (behs : List TransferBeh)
    (top : TopBeh) : RunReport :=
  if argv.length < 2 then ⟨1, false⟩
  else
    let url := argv[1]?.getD ""
    let fmt0 := (pickOpts argv).1
    let fmt := if fmt0 = "mp3" ∨ fmt0 = "mp4" then fmt0 else DEFAULT_FORMAT
    if validate_youtube_url url = false then ⟨1, false⟩
    else
      match top with
      | .kbInterrupt => ⟨1, false⟩
      | .otherExc => ⟨1, false⟩
      | .normal =>
        if is_playlist_url url then
          ⟨0, (download_playlist_run url mb behs [] fmt).1⟩
        else ⟨0, download_single_run url mb⟩

/-! ## Helper lemmas -/

theorem processEntry_none (fmt : String) (s : BatchState) (beh : TransferBeh) :
    processEntry fmt s (none, beh) = { s with errors := s.errors + 1 } := rfl

theorem processEntry_badTitle (fmt : String) (s : BatchState) (st : EntryStub)
    (beh : TransferBeh) (ht : truthyStr st.title = false) :
    processEntry fmt s (some st, beh) = { s with errors := s.errors + 1 } := by
  simp [processEntry, ht]

theorem processEntry_skipped (fmt : String) (s : BatchState) (st : EntryStub)
    (beh : TransferBeh) (ht : truthyStr st.title = true)
    (hm : entryExpected st fmt ∈ s.fs) :
    processEntry fmt s (some st, beh) = { s with skipped := s.skipped + 1 } := by
  simp only [entryExpected] at hm
  simp [processEntry, ht, hm]

theorem processEntry_raised (fmt : String) (s : BatchState) (st : EntryStub)
    (k : Nat) (created : List String) (ht : truthyStr st.title = true)
    (hm : entryExpected st fmt ∉ s.fs) :
    processEntry fmt s (some st, TransferBeh.raises k created) =
      { s with fs := s.fs ++ created, downloaded := s.downloaded + k,
               errors := s.errors + 1, transferCalls := s.transferCalls ++ [st.url] } := by
  simp only [entryExpected] at hm
  simp [processEntry, ht, hm]

theorem processEntry_completed_mp3 (s : BatchState) (st : EntryStub)
    (k : Nat) (created : List String) (ht : truthyStr st.title = true)
    (hm : entryExpected st "mp3" ∉ s.fs) :
    processEntry "mp3" s (some st, TransferBeh.completes k created) =
      (match find_downloaded_file (s.fs ++ created) (st.title.getD "Unknown Title")
          (some (st.playlist_index.getD 0)) "mp3" with
       | some p =>
         { s with fs := s.fs ++ created, downloaded := s.downloaded + k,
                  transferCalls := s.transferCalls ++ [st.url], tagCalls := s.tagCalls ++ [p] }
       | none =>
         { s with fs := s.fs ++ created, downloaded := s.downloaded + k,
                  transferCalls := s.transferCalls ++ [st.url], warnings := s.warnings + 1 }) := by
  simp only [entryExpected] at hm
  simp only [processEntry, ht, if_true, hm, if_false]

theorem processEntry_completed_other (fmt : String) (s : BatchState) (st : EntryStub)
    (k : Nat) (created : List String) (ht : truthyStr st.title = true)
    (hm : entryExpected st fmt ∉ s.fs) (hf : fmt ≠ "mp3") :
    processEntry fmt s (some st, TransferBeh.completes k created) =
      { s with fs := s.fs ++ created, downloaded := s.downloaded + k,
               transferCalls := s.transferCalls ++ [st.url] } := by
  simp only [entryExpected] at hm
  simp [processEntry, ht, hm, hf]

theorem runBatch_append (fmt : String) (s : BatchState)
    (xs ys : List (Option EntryStub × TransferBeh)) :
    runBatch fmt s (xs ++ ys) = runBatch fmt (runBatch fmt s xs) ys := by
  simp [runBatch, List.foldl_append]

theorem sum3_processEntry (fmt : String) (s : BatchState) (e : Option EntryStub)
    (beh : TransferBeh) (hb : wellBehaved beh) :
    sum3 (processEntry fmt s (e, beh)) = sum3 s + 1 := by
  cases e with
  | none => simp only [processEntry_none, sum3]; omega
  | some st =>
    by_cases ht : truthyStr st.title
    · by_cases hm : entryExpected st fmt ∈ s.fs
      · rw [processEntry_skipped fmt s st beh ht hm]; simp only [sum3]; omega
      · cases beh with
        | raises k created =>
          have hk : k = 0 := hb
          rw [processEntry_raised fmt s st k created ht hm]
          simp only [sum3]; omega
        | completes k created =>
          have hk : k = 1 := hb
          by_cases hf : fmt = "mp3"
          · subst hf
            rw [processEntry_completed_mp3 s st k created ht hm]
            cases find_downloaded_file (s.fs ++ created) (st.title.getD "Unknown Title")
                (some (st.playlist_index.getD 0)) "mp3" <;>
              simp only [sum3] <;> omega
          · rw [processEntry_completed_other fmt s st k created ht hm hf]
            simp only [sum3]; omega
    · rw [processEntry_badTitle fmt s st beh (by simpa using ht)]
      simp only [sum3]; omega

theorem sum3_runBatch (fmt : String) :
    ∀ (items : List (Option EntryStub × TransferBeh)) (s : BatchState),
      (∀ p ∈ items, wellBehaved p.2) →
      sum3 (runBatch fmt s items) = sum3 s + items.length := by
  intro items
  induction items with
  | nil => intro s _; simp [runBatch]
  | cons hd tl ih =>
    intro s h
    have hhd : wellBehaved hd.2 := h hd (List.mem_cons_self hd tl)
    have htl : ∀ p ∈ tl, wellBehaved p.2 := fun p hp => h p (List.mem_cons_of_mem hd hp)
    have hstep : sum3 (processEntry fmt s hd) = sum3 s + 1 := by
      obtain ⟨e, b⟩ := hd
      exact sum3_processEntry fmt s e b hhd
    simp only [runBatch, List.foldl_cons] at *
    rw [ih _ htl, hstep, List.length_cons]
    omega

theorem rstripList_decomp (l : List Char) :
    ∃ ws, l = rstripList l ++ ws ∧ ∀ c ∈ ws, c.isWhitespace = true := by
  refine ⟨(l.reverse.takeWhile Char.isWhitespace).reverse, ?_, ?_⟩
  · conv_lhs => rw [← l.reverse_reverse,
      ← List.takeWhile_append_dropWhile Char.isWhitespace l.reverse]
    rw [List.reverse_append]
    rfl
  · intro c hc
    rw [List.mem_reverse] at hc
    exact List.mem_takeWhile_imp hc

theorem head?_dropWhile_ws (c : Char) :
    ∀ xs : List Char, (xs.dropWhile Char.isWhitespace).head? = some c →
      c.isWhitespace = false := by
  intro xs
  induction xs with
  | nil => simp [List.dropWhile]
  | cons a t ih =>
    by_cases h : Char.isWhitespace a
    · simpa [List.dropWhile_cons, h] using ih
    · rw [Bool.not_eq_true] at h
      simp only [List.dropWhile_cons, h, Bool.false_eq_true, if_false, List.head?_cons,
        Option.some.injEq]
      intro e
      subst e
      exact h

theorem rstripList_getLast? (l : List Char) (c : Char) :
    (rstripList l).getLast? = some c → c.isWhitespace = false := by
  intro h
  rw [rstripList, List.getLast?_reverse] at h
  exact head?_dropWhile_ws c l.reverse h

theorem mem_rstripList (c : Char) (l : List Char) (h : c ∈ rstripList l) : c ∈ l := by
  obtain ⟨ws, hdec, _⟩ := rstripList_decomp l
  rw [hdec]
  exact List.mem_append_left ws h

/-! ## Claim theorems -/

/-- C7 counterexample: the claim says sanitization never reduces a
non-empty title to zero characters without falling back to a placeholder,
but the non-empty title consisting of three exclamation marks sanitizes to
the empty string and not to the "Unknown" placeholder. -/
theorem C7_cex :
    (("!!!" : String) ≠ "") ∧ sanitize_filename (some "!!!") = "" ∧
      sanitize_filename (some "!!!") ≠ "Unknown" := by decide

/-- C7 (corrected): sanitize_filename keeps exactly the characters that are
alphanumeric, space, dot, dash or underscore, then trims trailing
whitespace, and falls back to the "Unknown" placeholder exactly when the
input is absent or empty; a non-empty title all of whose characters are
disallowed is reduced to the empty string, with no placeholder. -/
theorem C7_amended :
    sanitize_filename none = "Unknown" ∧ sanitize_filename (some "") = "Unknown" ∧
    ∀ s : String, s ≠ "" →
      (∀ c ∈ (sanitize_filename (some s)).data, keepChar c = true) ∧
      (∃ ws, s.data.filter keepChar = (sanitize_filename (some s)).data ++ ws ∧
        ∀ c ∈ ws, c.isWhitespace = true) ∧
      (∀ c, (sanitize_filename (some s)).data.getLast? = some c → c.isWhitespace = false) ∧
      ((∀ c ∈ s.data, keepChar c = false) → sanitize_filename (some s) = "") := by
  refine ⟨rfl, rfl, ?_⟩
  intro s hs
  have hdef : sanitize_filename (some s) = String.mk (rstripList (s.data.filter keepChar)) := by
    simp [sanitize_filename, hs]
  refine ⟨?_, ?_, ?_, ?_⟩
  · intro c hc
    rw [hdef] at hc
    have : c ∈ s.data.filter keepChar := mem_rstripList c _ hc
    exact (List.mem_filter.mp this).2
  · obtain ⟨ws, hdec, hws⟩ := rstripList_decomp (s.data.filter keepChar)
    exact ⟨ws, by rw [hdef]; exact hdec, hws⟩
  · intro c hc
    rw [hdef] at hc
    exact rstripList_getLast? _ c hc
  · intro hall
    have : s.data.filter keepChar = [] := by
      rw [List.filter_eq_nil_iff]
      intro a ha
      simp [hall a ha]
    rw [hdef, this]
    rfl

/-- C7 witness: the amended statement evaluated at the concrete non-empty
title "a!b " (which sanitizes to "ab"). -/
theorem C7_witness :
    (("a!b " : String) ≠ "") ∧
    ((∀ c ∈ (sanitize_filename (some "a!b ")).data, keepChar c = true) ∧
     (∃ ws, ("a!b " : String).data.filter keepChar =
        (sanitize_filename (some "a!b ")).data ++ ws ∧ ∀ c ∈ ws, c.isWhitespace = true) ∧
     (∀ c, (sanitize_filename (some "a!b ")).data.getLast? = some c →
        c.isWhitespace = false) ∧
     ((∀ c ∈ ("a!b " : String).data, keepChar c = false) →
        sanitize_filename (some "a!b ") = "")) :=
  ⟨by decide, C7_amended.2.2 "a!b " (by decide)⟩

/-- C10 (confirmed): for an absent (None) or empty title, sanitize_filename
returns the placeholder "Unknown", which is non-empty, so the expected
file names built from an absent title have a non-empty stem. -/
theorem C10_thm :
    sanitize_filename none = "Unknown" ∧ sanitize_filename (some "") = "Unknown" ∧
    ("Unknown" : String) ≠ "" ∧ expected_name (some 1) "" "mp3" = "01 - Unknown.mp3" ∧
    expected_name none "" "mp3" = "Unknown.mp3" := by decide

/-- C1 counterexample: downloaded_count is incremented by the progress hook
per "finished" event, so a valid entry whose transfer call returns without
firing a finished event (as yt-dlp does for a failed item with
ignoreerrors set, line 129) leaves all three counters at zero and the sum
below the collection size. -/
theorem C1_cex :
    (let items : List (Option EntryStub × TransferBeh) :=
       [(some ⟨some "Alpha", some "Up", some 1, "u1"⟩, TransferBeh.completes 0 [])];
     let r := runBatch "mp3" (initState []) items;
     r.downloaded + r.skipped + r.errors ≠ items.length) := by decide

/-- C1 (corrected): when every transfer call of the run is well behaved,
meaning that a call that returns fires exactly one finished progress event
and a call that raises fires none, every entry contributes exactly one to
exactly one counter and the counters sum to the collection size at batch
completion. -/
theorem C1_amended (fmt : String) (fs : List String)
    (items : List (Option EntryStub × TransferBeh))
    (h : ∀ p ∈ items, wellBehaved p.2) :
    (runBatch fmt (initState fs) items).downloaded +
      (runBatch fmt (initState fs) items).skipped +
      (runBatch fmt (initState fs) items).errors = items.length := by
  have := sum3_runBatch fmt items (initState fs) h
  simpa [sum3, initState] using this

/-- C1 witness: the amended statement on a concrete two-entry run with one
successful transfer and one deleted entry. -/
theorem C1_witness :
    (runBatch "mp3" (initState [])
        [(some ⟨some "One", some "Up", some 1, "a1"⟩, TransferBeh.completes 1 ["One.mp3"]),
         (none, TransferBeh.raises 0 [])]).downloaded +
      (runBatch "mp3" (initState [])
        [(some ⟨some "One", some "Up", some 1, "a1"⟩, TransferBeh.completes 1 ["One.mp3"]),
         (none, TransferBeh.raises 0 [])]).skipped +
      (runBatch "mp3" (initState [])
        [(some ⟨some "One", some "Up", some 1, "a1"⟩, TransferBeh.completes 1 ["One.mp3"]),
         (none, TransferBeh.raises 0 [])]).errors =
      ([(some ⟨some "One", some "Up", some 1, "a1"⟩, TransferBeh.completes 1 ["One.mp3"]),
        (none, TransferBeh.raises 0 [])] :
          List (Option EntryStub × TransferBeh)).length :=
  C1_amended "mp3" []
    [(some ⟨some "One", some "Up", some 1, "a1"⟩, TransferBeh.completes 1 ["One.mp3"]),
     (none, TransferBeh.raises 0 [])]
    (by intro p hp; fin_cases hp <;> rfl)

/-- C2 (code bug, evaluated at the failing input): the guard of line 376
expects the indexed name "01 - Song.mp3", but the output template of
get_ydl_opts names the produced file "Song.mp3", so a second identical run
over the directory produced by the first re-invokes the transfer for the
item and reports skipped = 0 and downloaded = 1 instead of the claimed
skipped = N = 1 and downloaded = 0. -/
theorem C2_bug :
    (let item : Option EntryStub × TransferBeh :=
       (some ⟨some "Song", some "Up", some 1, "u"⟩,
        TransferBeh.completes 1 [outtmpl_name "Song" "mp3"]);
     let r1 := runBatch "mp3" (initState []) [item];
     let r2 := runBatch "mp3" (initState r1.fs) [item];
     r1.fs = ["Song.mp3"] ∧
     entryExpected ⟨some "Song", some "Up", some 1, "u"⟩ "mp3" = "01 - Song.mp3" ∧
     r2.skipped = 0 ∧ r2.downloaded = 1 ∧ r2.transferCalls = ["u"]) := by decide

/-- C3 counterexample: a syntactically valid playlist locator whose
metadata resolution fails (MetadataUnavailable) makes download_playlist
print an error and return, so main falls through and the process exits 0
without printing a summary, contradicting the claim that this run-level
error produces a non-zero exit. -/
theorem C3_cex :
    mainRun ["music.py", "https://www.youtube.com/playlist?list=PL1"]
      MetaBeh.raisesX [] TopBeh.normal = ⟨0, false⟩ := by decide

/-- C3 (corrected): the process exits non-zero exactly on a missing
argument, an invalid locator, or an unhandled top-level failure (including
a keyboard interrupt); a failed or empty metadata resolution exits zero,
and then no summary is printed. -/
theorem C3_amended (argv : List String) (mb : MetaBeh) (behs : List TransferBeh)
    (top : TopBeh) :
    (mainRun argv mb behs top).exitCode =
      (if argv.length < 2 ∨ validate_youtube_url (argv[1]?.getD "") = false ∨
          top ≠ TopBeh.normal then 1 else 0) ∧
    (mainRun argv MetaBeh.raisesX behs top).summaryPrinted = false := by
  by_cases h1 : argv.length < 2
  · simp [mainRun, h1]
  · by_cases h2 : validate_youtube_url (argv[1]?.getD "") = false
    · simp [mainRun, h1, h2]
    · have h2t : validate_youtube_url (argv[1]?.getD "") = true := by
        revert h2
        cases validate_youtube_url (argv[1]?.getD "") <;> simp
      cases top with
      | kbInterrupt => simp [mainRun, h1, h2t]
      | otherExc => simp [mainRun, h1, h2t]
      | normal =>
        by_cases h3 : is_playlist_url (argv[1]?.getD "") = true
        · cases mb <;>
            simp [mainRun, h1, h2t, h3, download_playlist_run, download_single_run]
        · cases mb <;>
            simp [mainRun, h1, h2t, h3, download_playlist_run, download_single_run]

/-- C4 (confirmed): an exception raised inside the try block of one item is
caught at the aggregator level and counted as one error, and the fold
continues with the remaining items from the resulting state, so no single
item exception escapes the loop or aborts the batch. -/
theorem C4_thm (fmt : String) (s0 : BatchState)
    (pre : List (Option EntryStub × TransferBeh)) (st : EntryStub) (k : Nat)
    (created : List String) (post : List (Option EntryStub × TransferBeh))
    (ht : truthyStr st.title = true)
    (hm : entryExpected st fmt ∉ (runBatch fmt s0 pre).fs) :
    (processEntry fmt (runBatch fmt s0 pre) (some st, TransferBeh.raises k created)).errors
        = (runBatch fmt s0 pre).errors + 1 ∧
    runBatch fmt s0 (pre ++ (some st, TransferBeh.raises k created) :: post)
        = runBatch fmt
            (processEntry fmt (runBatch fmt s0 pre) (some st, TransferBeh.raises k created))
            post := by
  constructor
  · rw [processEntry_raised fmt (runBatch fmt s0 pre) st k created ht hm]
  · rw [runBatch_append]
    simp [runBatch, List.foldl_cons]

/-- C4 witness: the statement applied to a concrete run with one later item
after the raising one. -/
theorem C4_witness :
    (processEntry "mp3" (runBatch "mp3" (initState []) [])
        (some ⟨some "Bad", some "Up", some 1, "ub"⟩, TransferBeh.raises 0 [])).errors
        = (runBatch "mp3" (initState []) []).errors + 1 ∧
    runBatch "mp3" (initState [])
        ([] ++ (some ⟨some "Bad", some "Up", some 1, "ub"⟩, TransferBeh.raises 0 []) ::
          [(some ⟨some "Next", some "Up", some 2, "un"⟩, TransferBeh.completes 1 ["Next.mp3"])])
        = runBatch "mp3"
            (processEntry "mp3" (runBatch "mp3" (initState []) [])
              (some ⟨some "Bad", some "Up", some 1, "ub"⟩, TransferBeh.raises 0 []))
            [(some ⟨some "Next", some "Up", some 2, "un"⟩, TransferBeh.completes 1 ["Next.mp3"])] :=
  C4_thm "mp3" (initState []) [] ⟨some "Bad", some "Up", some 1, "ub"⟩ 0 [] _
    (by decide) (by decide)

/-- C5 (confirmed): for a valid entry the loop skips exactly when a file
whose name equals the expected indexed name is present in the destination
listing; a skipped item changes nothing but the skipped counter, so no
transfer call is made for it. -/
theorem C5_thm (fmt : String) (s : BatchState) (st : EntryStub) (beh : TransferBeh)
    (ht : truthyStr st.title = true) :
    (((processEntry fmt s (some st, beh)).skipped = s.skipped + 1) ↔
      entryExpected st fmt ∈ s.fs) ∧
    (entryExpected st fmt ∈ s.fs →
      processEntry fmt s (some st, beh) = { s with skipped := s.skipped + 1 }) := by
  by_cases hm : entryExpected st fmt ∈ s.fs
  · rw [processEntry_skipped fmt s st beh ht hm]
    exact ⟨⟨fun _ => hm, fun _ => rfl⟩, fun _ => rfl⟩
  · have hsk : (processEntry fmt s (some st, beh)).skipped = s.skipped := by
      cases beh with
      | raises k created => rw [processEntry_raised fmt s st k created ht hm]
      | completes k created =>
        by_cases hf : fmt = "mp3"
        · subst hf
          rw [processEntry_completed_mp3 s st k created ht hm]
          cases find_downloaded_file (s.fs ++ created) (st.title.getD "Unknown Title")
              (some (st.playlist_index.getD 0)) "mp3" <;> rfl
        · rw [processEntry_completed_other fmt s st k created ht hm hf]
    constructor
    · rw [hsk]
      constructor
      · intro h
        exact absurd h (Nat.ne_of_lt (Nat.lt_succ_self s.skipped))
      · intro h
        exact absurd h hm
    · intro h
      exact absurd h hm

/-- C5 witness: a destination already holding the expected name of the
entry, which is therefore skipped without a transfer call. -/
theorem C5_witness :
    (((processEntry "mp3" (initState ["01 - Hit.mp3"])
          (some ⟨some "Hit", some "Up", some 1, "uh"⟩, TransferBeh.completes 1 [])).skipped
        = (initState ["01 - Hit.mp3"]).skipped + 1) ↔
      entryExpected ⟨some "Hit", some "Up", some 1, "uh"⟩ "mp3"
        ∈ (initState ["01 - Hit.mp3"]).fs) ∧
    (entryExpected ⟨some "Hit", some "Up", some 1, "uh"⟩ "mp3"
        ∈ (initState ["01 - Hit.mp3"]).fs →
      processEntry "mp3" (initState ["01 - Hit.mp3"])
          (some ⟨some "Hit", some "Up", some 1, "uh"⟩, TransferBeh.completes 1 [])
        = { (initState ["01 - Hit.mp3"]) with
              skipped := (initState ["01 - Hit.mp3"]).skipped + 1 }) :=
  C5_thm "mp3" (initState ["01 - Hit.mp3"]) ⟨some "Hit", some "Up", some 1, "uh"⟩
    (TransferBeh.completes 1 []) (by decide)

/-- C6 counterexample: the claim describes the fallback as matching files
whose sanitized stem shares a fixed-length prefix with the sanitized title,
but find_downloaded_file tests substring containment over the sanitized
full file name: for the title "Intro" it returns "The Intro.mp3", whose
stem "The Intro" shares no prefix with "Intro", while the spec-modelled
matcher finds nothing. -/
theorem C6_cex :
    find_downloaded_file ["The Intro.mp3"] "Intro" (some 1) "mp3" = some "The Intro.mp3" ∧
    find_downloaded_file_spec ["The Intro.mp3"] "Intro" (some 1) "mp3" = none := by decide

/-- C6 (corrected): when the expected name is absent, file resolution
returns a listed file whose name ends in "." + format and whose sanitized
full name contains the first 20 characters of the sanitized title as a
substring (not a stem-prefix match); when resolution fails, no listed file
passes that test, and the loop skips tagging with one warning while still
adding the finished-event count to the downloaded counter. -/
theorem C6_amended :
    (∀ (files : List String) (title : String) (idx : Option Nat) (fmt f : String),
        find_downloaded_file files title idx fmt = some f →
        f ∈ files ∧ (f = expected_name idx title fmt ∨
          (strEndsWith f ("." ++ fmt) = true ∧
           strContainsB (sanitizeStr f) (strTake (sanitizeStr title) 20) = true))) ∧
    (∀ (files : List String) (title : String) (idx : Option Nat) (fmt : String),
        find_downloaded_file files title idx fmt = none →
        expected_name idx title fmt ∉ files ∧
        ∀ f ∈ files, strEndsWith f ("." ++ fmt) = false ∨
          strContainsB (sanitizeStr f) (strTake (sanitizeStr title) 20) = false) ∧
    (∀ (s : BatchState) (st : EntryStub) (k : Nat) (created : List String),
        truthyStr st.title = true →
        entryExpected st "mp3" ∉ s.fs →
        find_downloaded_file (s.fs ++ created) (st.title.getD "Unknown Title")
          (some (st.playlist_index.getD 0)) "mp3" = none →
        processEntry "mp3" s (some st, TransferBeh.completes k created) =
          { s with fs := s.fs ++ created, downloaded := s.downloaded + k,
                   transferCalls := s.transferCalls ++ [st.url],
                   warnings := s.warnings + 1 }) := by
  refine ⟨?_, ?_, ?_⟩
  · intro files title idx fmt f h
    unfold find_downloaded_file at h
    by_cases hm : expected_name idx title fmt ∈ files
    · simp only [hm, if_true, Option.some.injEq] at h
      exact ⟨h ▸ hm, Or.inl h.symm⟩
    · simp only [hm, if_false] at h
      have hmem := List.mem_of_find?_eq_some h
      have hp := List.find?_some h
      rw [Bool.and_eq_true] at hp
      exact ⟨hmem, Or.inr hp⟩
  · intro files title idx fmt h
    unfold find_downloaded_file at h
    by_cases hm : expected_name idx title fmt ∈ files
    · simp [hm] at h
    · simp only [hm, if_false] at h
      rw [List.find?_eq_none] at h
      refine ⟨hm, fun f hf => ?_⟩
      have := h f hf
      rw [Bool.and_eq_true] at this
      rcases Bool.eq_false_or_eq_true (strEndsWith f ("." ++ fmt)) with he | he
      · refine Or.inr ?_
        rcases Bool.eq_false_or_eq_true
            (strContainsB (sanitizeStr f) (strTake (sanitizeStr title) 20)) with hc | hc
        · exact absurd ⟨he, hc⟩ this
        · exact hc
      · exact Or.inl he
  · intro s st k created ht hm hfind
    rw [processEntry_completed_mp3 s st k created ht hm, hfind]

/-- C6 witness: a directory with no file of the right extension, on which
resolution reports failure for every listed file. -/
theorem C6_witness :
    expected_name (some 1) "Intro" "mp3" ∉ (["Other.wav"] : List String) ∧
    (∀ f ∈ (["Other.wav"] : List String), strEndsWith f ("." ++ "mp3") = false ∨
      strContainsB (sanitizeStr f) (strTake (sanitizeStr "Intro") 20) = false) :=
  C6_amended.2.1 ["Other.wav"] "Intro" (some 1) "mp3" (by decide)

/-- C8 (confirmed): an entry that is missing or has no truthy title is
recorded as one more error with no other state change, so its transfer is
never attempted; on the concrete three-entry collection whose second entry
has no resolvable title, the run downloads entries one and three, counts
one error and no skip, and calls the transfer collaborator only for the
two valid entries. -/
theorem C8_thm :
    (∀ (fmt : String) (s : BatchState) (beh : TransferBeh) (e : Option EntryStub),
        (e = none ∨ ∃ st, e = some st ∧ truthyStr st.title = false) →
        processEntry fmt s (e, beh) = { s with errors := s.errors + 1 }) ∧
    ((runBatch "mp3" (initState [])
        [(some ⟨some "Alpha", some "Up", some 1, "u1"⟩, TransferBeh.completes 1 ["Alpha.mp3"]),
         (some ⟨none, some "Up", some 2, "u2"⟩, TransferBeh.completes 0 []),
         (some ⟨some "Gamma", some "Up", some 3, "u3"⟩,
           TransferBeh.completes 1 ["Gamma.mp3"])]).downloaded = 2 ∧
     (runBatch "mp3" (initState [])
        [(some ⟨some "Alpha", some "Up", some 1, "u1"⟩, TransferBeh.completes 1 ["Alpha.mp3"]),
         (some ⟨none, some "Up", some 2, "u2"⟩, TransferBeh.completes 0 []),
         (some ⟨some "Gamma", some "Up", some 3, "u3"⟩,
           TransferBeh.completes 1 ["Gamma.mp3"])]).errors = 1 ∧
     (runBatch "mp3" (initState [])
        [(some ⟨some "Alpha", some "Up", some 1, "u1"⟩, TransferBeh.completes 1 ["Alpha.mp3"]),
         (some ⟨none, some "Up", some 2, "u2"⟩, TransferBeh.completes 0 []),
         (some ⟨some "Gamma", some "Up", some 3, "u3"⟩,
           TransferBeh.completes 1 ["Gamma.mp3"])]).skipped = 0 ∧
     (runBatch "mp3" (initState [])
        [(some ⟨some "Alpha", some "Up", some 1, "u1"⟩, TransferBeh.completes 1 ["Alpha.mp3"]),
         (some ⟨none, some "Up", some 2, "u2"⟩, TransferBeh.completes 0 []),
         (some ⟨some "Gamma", some "Up", some 3, "u3"⟩,
           TransferBeh.completes 1 ["Gamma.mp3"])]).transferCalls = ["u1", "u3"]) := by
  constructor
  · intro fmt s beh e h
    rcases h with h | ⟨st, rfl, ht⟩
    · subst h
      exact processEntry_none fmt s beh
    · exact processEntry_badTitle fmt s st beh ht
  · decide

/-- C8 witness: the invalid-entry statement applied to a concrete deleted
entry. -/
theorem C8_witness :
    processEntry "mp3" (initState []) (none, TransferBeh.completes 0 []) =
      { (initState []) with errors := (initState []).errors + 1 } :=
  C8_thm.1 "mp3" (initState []) (TransferBeh.completes 0 []) none (Or.inl rfl)

/-- C9 (confirmed): tag_mp3 writes the track-position field only when both
the track index and the track total are provided (and truthy); with
track index 3 and no total, the track field is left unchanged while title,
artist and album are still written whenever they are provided non-empty. -/
theorem C9_thm :
    (∀ (tag : Mp3Tag) (t a al : Option String) (tr tot : Option Nat) (img : Bool),
        (applyTags tag t a al tr tot img).track ≠ tag.track →
        tr ≠ none ∧ tot ≠ none) ∧
    (∀ (tag : Mp3Tag) (t a al : Option String) (img : Bool),
        (applyTags tag t a al (some 3) none img).track = tag.track ∧
        (truthyStr t = true → (applyTags tag t a al (some 3) none img).title = t) ∧
        (truthyStr a = true → (applyTags tag t a al (some 3) none img).artist = a) ∧
        (truthyStr al = true → (applyTags tag t a al (some 3) none img).album = al)) := by
  have htrack : ∀ (tag : Mp3Tag) (t a al : Option String) (tr tot : Option Nat) (img : Bool),
      (applyTags tag t a al tr tot img).track =
        (if truthyNat tr && truthyNat tot then some (tr.getD 0, tot.getD 0) else tag.track) := by
    intro tag t a al tr tot img
    unfold applyTags
    by_cases h1 : truthyStr t <;> by_cases h2 : truthyStr a <;> by_cases h3 : truthyStr al <;>
      by_cases h4 : truthyNat tr && truthyNat tot <;> by_cases h5 : img <;>
      simp [h1, h2, h3, h4, h5]
  constructor
  · intro tag t a al tr tot img hne
    rw [htrack] at hne
    by_cases h : truthyNat tr && truthyNat tot
    · rw [Bool.and_eq_true] at h
      constructor
      · intro e
        rw [e] at h
        exact absurd h.1 (by simp [truthyNat])
      · intro e
        rw [e] at h
        exact absurd h.2 (by simp [truthyNat])
    · rw [if_neg h] at hne
      exact absurd rfl hne
  · intro tag t a al img
    refine ⟨?_, ?_, ?_, ?_⟩
    · rw [htrack]
      simp [truthyNat]
    · intro h
      unfold applyTags
      by_cases h3 : truthyStr al <;> by_cases h5 : img <;>
        by_cases h2 : truthyStr a <;> simp [h, h2, h3, h5, truthyNat]
    · intro h
      unfold applyTags
      by_cases h1 : truthyStr t <;> by_cases h3 : truthyStr al <;> by_cases h5 : img <;>
        simp [h, h1, h3, h5, truthyNat]
    · intro h
      unfold applyTags
      by_cases h1 : truthyStr t <;> by_cases h2 : truthyStr a <;> by_cases h5 : img <;>
        simp [h, h1, h2, h5, truthyNat]

/-- C9 witness: tagging a fresh container with title, artist and album
provided, track index 3, and no track total: the track field stays unset
while the title is written. -/
theorem C9_witness :
    (applyTags emptyTag (some "T") (some "A") (some "B") (some 3) none false).track = none ∧
    (applyTags emptyTag (some "T") (some "A") (some "B") (some 3) none false).title =
      some "T" :=
  ⟨(C9_thm.2 emptyTag (some "T") (some "A") (some "B") false).1,
   (C9_thm.2 emptyTag (some "T") (some "A") (some "B") false).2.1 (by decide)⟩

end SwissKnife
